import Mathlib

/-!
Verification development for the widget-state and custom-component messaging
core of the repository (a Streamlit-style browser front-end).

The development shallowly embeds, in Lean, the code of:
  * `WidgetStateManager` (lib/WidgetStateManager): the widget state store and
    its synchronization flush;
  * `ComponentInstance` (custom-component message channel): the
    `COMPONENT_READY` / `SET_WIDGET_VALUE` / `SET_FRAME_HEIGHT` handshake;
  * `Block.isElementStale` (components/core/Block/Block.tsx);
  * `Text.render` (components/elements/Text/Text.tsx), JSON branch.

Modelling conventions:
  * JavaScript numbers are modelled by `Int`.  None of the embedded code
    performs arithmetic on widget values - they are only stored and
    retrieved - so any carrier with decidable equality is faithful.
  * The `sendRerunBackMsg` collaborator callback is modelled by recording
    each delivered `WidgetStates` payload in a `sentMessages` log.
  * `logWarning` is modelled by appending the warning text to a `warnings`
    log; `postMessage` to the component iframe by appending to a
    `postedMessages` log.
-/

namespace Demoo

/-- JavaScript numbers (see modelling conventions above). -/
abbrev JsNumber := Int

/-- A JSON-serializable JavaScript value, as passed to `setJsonValue` and
carried by cross-frame messages. -/
inductive JsValue where
  | jsNull : JsValue
  | jsBool (b : Bool) : JsValue
  | jsNum (n : JsNumber) : JsValue
  | jsStr (s : String) : JsValue
  | jsArr (elems : List JsValue) : JsValue
  | jsObj (fields : List (String × JsValue)) : JsValue

/-- Escaping of one character inside a JSON string literal, as
`JSON.stringify` performs it (quote and backslash; other characters of the
values used here pass through unchanged). -/
def escapeJsonChar (c : Char) : String :=
  if c = '"' then "\\\""
  else if c = '\\' then "\\\\"
  else String.singleton c

/-- Escaping of a whole string for a JSON string literal. -/
def escapeJson (s : String) : String :=
  String.join (s.toList.map escapeJsonChar)

mutual

/-- The platform builtin `JSON.stringify`, on the modelled `JsValue`s. -/
def stringify : JsValue → String
  | .jsNull => "null"
  | .jsBool true => "true"
  | .jsBool false => "false"
  | .jsNum n => toString n
  | .jsStr s => "\"" ++ escapeJson s ++ "\""
  | .jsArr xs => "[" ++ stringifyElems xs ++ "]"
  | .jsObj fs => "\x7b" ++ stringifyFields fs ++ "\x7d"

/-- Comma-separated serialization of JSON array elements. -/
def stringifyElems : List JsValue → String
  | [] => ""
  | [x] => stringify x
  | x :: xs => stringify x ++ "," ++ stringifyElems xs

/-- Comma-separated serialization of JSON object fields. -/
def stringifyFields : List (String × JsValue) → String
  | [] => ""
  | [(k, v)] => "\"" ++ escapeJson k ++ "\":" ++ stringify v
  | (k, v) :: fs =>
      "\"" ++ escapeJson k ++ "\":" ++ stringify v ++ "," ++ stringifyFields fs

end

/-- Source of a widget-state change (lib/WidgetStateManager): whether the
mutation originated from user interaction. -/
structure Source where
  fromUi : Bool
deriving DecidableEq

/-- protobufjs represents 64-bit integer proto fields as `number | Long`. -/
inductive NumberOrLong where
  | num (n : JsNumber) : NumberOrLong
  | long (n : JsNumber) : NumberOrLong
deriving DecidableEq

/-- Require that a `number | Long` is a `number`; if the value is a `Long`,
throw an `Error` (function `requireNumber` of lib/WidgetStateManager). -/
def requireNumber : NumberOrLong → Except String JsNumber
  | .num n => .ok n
  | .long n => .error ("Expected a number, but got a Long: " ++ toString n)

/-- Opaque carrier for the `IArrowTable` payload stored by `setArrowValue`.
The manager never inspects it. -/
structure ArrowTable where
  payload : List Nat
deriving DecidableEq

/-- The `value` oneof of the `WidgetState` proto: exactly one typed variant
populated at a time (`unset` is a freshly-constructed proto with no variant). -/
inductive WidgetValue where
  | unset : WidgetValue
  | triggerValue (b : Bool) : WidgetValue
  | boolValue (b : Bool) : WidgetValue
  | intValue (n : NumberOrLong) : WidgetValue
  | floatValue (n : JsNumber) : WidgetValue
  | stringValue (s : String) : WidgetValue
  | stringArrayValue (data : List String) : WidgetValue
  | intArrayValue (value : List NumberOrLong) : WidgetValue
  | floatArrayValue (value : List JsNumber) : WidgetValue
  | jsonValue (s : String) : WidgetValue
  | arrowValue (t : ArrowTable) : WidgetValue
  | bytesValue (bs : List Nat) : WidgetValue
deriving DecidableEq

/-- The protobufjs oneof discriminator: `state.value` evaluates to the name
of the populated variant field, or `undefined` when none is populated. -/
def WidgetValue.tag : WidgetValue → Option String
  | .unset => none
  | .triggerValue _ => some "triggerValue"
  | .boolValue _ => some "boolValue"
  | .intValue _ => some "intValue"
  | .floatValue _ => some "floatValue"
  | .stringValue _ => some "stringValue"
  | .stringArrayValue _ => some "stringArrayValue"
  | .intArrayValue _ => some "intArrayValue"
  | .floatArrayValue _ => some "floatArrayValue"
  | .jsonValue _ => some "jsonValue"
  | .arrowValue _ => some "arrowValue"
  | .bytesValue _ => some "bytesValue"

/-- The `WidgetState` proto: a widget id together with its typed value. -/
structure WidgetState where
  id : String
  value : WidgetValue
deriving DecidableEq

/-- The widget state store and its effect log.  `widgetStates` models the
JavaScript `Map<string, WidgetState>` as an insertion-ordered association
list; `sentMessages` records each payload handed to the `sendRerunBackMsg`
collaborator (a `WidgetStates` message is its `widgets` list). -/
structure WidgetStateManager where
  widgetStates : List (String × WidgetState) := []
  sentMessages : List (List WidgetState) := []
deriving DecidableEq

namespace WidgetStateManager

/-- JavaScript `Map.set`: overwriting an existing key keeps its original
insertion position; a new key is appended at the end. -/
def mapSet (k : String) (v : WidgetState) :
    List (String × WidgetState) → List (String × WidgetState)
  | [] => [(k, v)]
  | (k', v') :: rest =>
      if k' = k then (k, v) :: rest else (k', v') :: mapSet k v rest

/-- JavaScript `Map.get`. -/
def mapGet (k : String) : List (String × WidgetState) → Option WidgetState
  | [] => none
  | (k', v) :: rest => if k' = k then some v else mapGet k rest

/-- True if the widget state dict is empty (`isEmpty` getter). -/
def isEmpty (m : WidgetStateManager) : Bool :=
  m.widgetStates.length = 0

/-- `createWidgetStateProto(id).field = v`: stores a fresh `WidgetState`
proto with the given id (overwriting any existing entry) and populates its
oneof.  In the source the proto is created, inserted, and then mutated by
the caller through the returned reference; the net effect is this. -/
def setWidgetStateProto (id : String) (v : WidgetValue)
    (m : WidgetStateManager) : WidgetStateManager :=
  { m with widgetStates := mapSet id ⟨id, v⟩ m.widgetStates }

/-- Removes the `WidgetState` proto with the given id, if it exists. -/
def deleteWidgetStateProto (id : String) (m : WidgetStateManager) :
    WidgetStateManager :=
  { m with widgetStates := m.widgetStates.filter (fun kv => kv.1 ≠ id) }

/-- Looks up the `WidgetState` proto with the given id. -/
def getWidgetStateProto (id : String) (m : WidgetStateManager) :
    Option WidgetState :=
  mapGet id m.widgetStates

/-- Builds the `WidgetStates` message: every stored entry pushed in the
store's (insertion) order. -/
def createWidgetStatesMsg (m : WidgetStateManager) : List WidgetState :=
  m.widgetStates.map Prod.snd

/-- Serializes the store and delivers it to `sendRerunBackMsg`. -/
def sendUpdateWidgetsMessage (m : WidgetStateManager) : WidgetStateManager :=
  { m with sentMessages := m.sentMessages ++ [createWidgetStatesMsg m] }

/-- Delivers an update message exactly when the change came from the UI. -/
def maybeSendUpdateWidgetsMessage (source : Source) (m : WidgetStateManager) :
    WidgetStateManager :=
  if source.fromUi then sendUpdateWidgetsMessage m else m

/-- Sets the trigger value for the given widget ID to true, sends a
rerun message to the server, and then immediately unsets the trigger
value. -/
def setTriggerValue (widgetId : String) (source : Source)
    (m : WidgetStateManager) : WidgetStateManager :=
  deleteWidgetStateProto widgetId
    (maybeSendUpdateWidgetsMessage source
      (setWidgetStateProto widgetId (.triggerValue true) m))

/-- Typed getter for the `boolValue` variant. -/
def getBoolValue (widgetId : String) (m : WidgetStateManager) : Option Bool :=
  match getWidgetStateProto widgetId m with
  | some state =>
      match state.value with
      | .boolValue b => some b
      | _ => none
  | none => none

/-- Typed setter for the `boolValue` variant. -/
def setBoolValue (widgetId : String) (value : Bool) (source : Source)
    (m : WidgetStateManager) : WidgetStateManager :=
  maybeSendUpdateWidgetsMessage source
    (setWidgetStateProto widgetId (.boolValue value) m)

/-- Typed getter for the `intValue` variant; throws when the stored proto
field deserialized as a `Long`. -/
def getIntValue (widgetId : String) (m : WidgetStateManager) :
    Except String (Option JsNumber) :=
  match getWidgetStateProto widgetId m with
  | some state =>
      match state.value with
      | .intValue n => do pure (some (← requireNumber n))
      | _ => .ok none
  | none => .ok none

/-- Typed setter for the `intValue` variant. -/
def setIntValue (widgetId : String) (value : JsNumber) (source : Source)
    (m : WidgetStateManager) : WidgetStateManager :=
  maybeSendUpdateWidgetsMessage source
    (setWidgetStateProto widgetId (.intValue (.num value)) m)

/-- Typed getter for the `floatValue` variant. -/
def getFloatValue (widgetId : String) (m : WidgetStateManager) :
    Option JsNumber :=
  match getWidgetStateProto widgetId m with
  | some state =>
      match state.value with
      | .floatValue n => some n
      | _ => none
  | none => none

/-- Typed setter for the `floatValue` variant. -/
def setFloatValue (widgetId : String) (value : JsNumber) (source : Source)
    (m : WidgetStateManager) : WidgetStateManager :=
  maybeSendUpdateWidgetsMessage source
    (setWidgetStateProto widgetId (.floatValue value) m)

/-- Typed getter for the `stringValue` variant. -/
def getStringValue (widgetId : String) (m : WidgetStateManager) :
    Option String :=
  match getWidgetStateProto widgetId m with
  | some state =>
      match state.value with
      | .stringValue s => some s
      | _ => none
  | none => none

/-- Typed setter for the `stringValue` variant. -/
def setStringValue (widgetId : String) (value : String) (source : Source)
    (m : WidgetStateManager) : WidgetStateManager :=
  maybeSendUpdateWidgetsMessage source
    (setWidgetStateProto widgetId (.stringValue value) m)

/-- Typed setter for the `stringArrayValue` variant
(`StringArray.fromObject` wraps the given array unchanged). -/
def setStringArrayValue (widgetId : String) (value : List String)
    (source : Source) (m : WidgetStateManager) : WidgetStateManager :=
  maybeSendUpdateWidgetsMessage source
    (setWidgetStateProto widgetId (.stringArrayValue value) m)

/-- Typed getter for the `stringArrayValue` variant.  The source's null
checks on the wrapper message and its `data` field hold by construction
here, the wrapper being modelled by its payload list. -/
def getStringArrayValue (widgetId : String) (m : WidgetStateManager) :
    Option (List String) :=
  match getWidgetStateProto widgetId m with
  | some state =>
      match state.value with
      | .stringArrayValue data => some data
      | _ => none
  | none => none

/-- Typed getter for the `floatArrayValue` variant. -/
def getFloatArrayValue (widgetId : String) (m : WidgetStateManager) :
    Option (List JsNumber) :=
  match getWidgetStateProto widgetId m with
  | some state =>
      match state.value with
      | .floatArrayValue value => some value
      | _ => none
  | none => none

/-- Typed setter for the `floatArrayValue` variant. -/
def setFloatArrayValue (widgetId : String) (value : List JsNumber)
    (source : Source) (m : WidgetStateManager) : WidgetStateManager :=
  maybeSendUpdateWidgetsMessage source
    (setWidgetStateProto widgetId (.floatArrayValue value) m)

/-- JavaScript `value.map(requireNumber)`: element-wise `requireNumber`,
propagating the first thrown error. -/
def mapRequireNumber : List NumberOrLong → Except String (List JsNumber)
  | [] => .ok []
  | n :: rest =>
      match requireNumber n with
      | .error e => .error e
      | .ok a =>
          match mapRequireNumber rest with
          | .error e => .error e
          | .ok as => .ok (a :: as)

/-- Typed getter for the `intArrayValue` variant; maps `requireNumber` over
the stored elements, throwing on any `Long`. -/
def getIntArrayValue (widgetId : String) (m : WidgetStateManager) :
    Except String (Option (List JsNumber)) :=
  match getWidgetStateProto widgetId m with
  | some state =>
      match state.value with
      | .intArrayValue value =>
          match mapRequireNumber value with
          | .error e => .error e
          | .ok ns => .ok (some ns)
      | _ => .ok none
  | none => .ok none

/-- Typed setter for the `intArrayValue` variant.  `IArrowTable` aside, the
autogen proto wrappers are not in the sources; `IntArray.fromObject` is
taken to store the given numbers as numbers. -/
def setIntArrayValue (widgetId : String) (value : List JsNumber)
    (source : Source) (m : WidgetStateManager) : WidgetStateManager :=
  maybeSendUpdateWidgetsMessage source
    (setWidgetStateProto widgetId (.intArrayValue (value.map .num)) m)

/-- Typed getter for the `jsonValue` variant: returns the stored JSON
string. -/
def getJsonValue (widgetId : String) (m : WidgetStateManager) :
    Option String :=
  match getWidgetStateProto widgetId m with
  | some state =>
      match state.value with
      | .jsonValue s => some s
      | _ => none
  | none => none

/-- Typed setter for the `jsonValue` variant: stores
`JSON.stringify(value)`. -/
def setJsonValue (widgetId : String) (value : JsValue) (source : Source)
    (m : WidgetStateManager) : WidgetStateManager :=
  maybeSendUpdateWidgetsMessage source
    (setWidgetStateProto widgetId (.jsonValue (stringify value)) m)

/-- Typed setter for the `arrowValue` variant. -/
def setArrowValue (widgetId : String) (value : ArrowTable) (source : Source)
    (m : WidgetStateManager) : WidgetStateManager :=
  maybeSendUpdateWidgetsMessage source
    (setWidgetStateProto widgetId (.arrowValue value) m)

/-- Typed getter for the `arrowValue` variant. -/
def getArrowValue (widgetId : String) (m : WidgetStateManager) :
    Option ArrowTable :=
  match getWidgetStateProto widgetId m with
  | some state =>
      match state.value with
      | .arrowValue t => some t
      | _ => none
  | none => none

/-- Typed setter for the `bytesValue` variant. -/
def setBytesValue (widgetId : String) (value : List Nat) (source : Source)
    (m : WidgetStateManager) : WidgetStateManager :=
  maybeSendUpdateWidgetsMessage source
    (setWidgetStateProto widgetId (.bytesValue value) m)

/-- Typed getter for the `bytesValue` variant. -/
def getBytesValue (widgetId : String) (m : WidgetStateManager) :
    Option (List Nat) :=
  match getWidgetStateProto widgetId m with
  | some state =>
      match state.value with
      | .bytesValue bs => some bs
      | _ => none
  | none => none

/-- Removes the state of widgets that are not contained in `active_ids`.
The source iterates `Map.forEach` over the store, deleting each visited
entry whose key is not active; the fold below iterates over the same
snapshot of entries (only already-visited entries are ever deleted, so the
live-map iteration visits exactly these). -/
def clean (active_ids : List String) (m : WidgetStateManager) :
    WidgetStateManager :=
  m.widgetStates.foldl
    (fun acc kv =>
      if active_ids.contains kv.1 then acc else deleteWidgetStateProto kv.1 acc)
    m

end WidgetStateManager

/-- Messages from Component to Streamlit (enum `ComponentBackMsgType`). -/
def COMPONENT_READY : String := "componentReady"

/-- The component has a new widget value (enum `ComponentBackMsgType`). -/
def SET_WIDGET_VALUE : String := "setWidgetValue"

/-- The component has a new height for its iframe (enum
`ComponentBackMsgType`). -/
def SET_FRAME_HEIGHT : String := "setFrameHeight"

/-- Message from Streamlit to Component (enum `ComponentForwardMsgType`). -/
def RENDER : String := "render"

/-- The `data` payload of a `ComponentBackMsg`.  `tryGetValue(data, name)`
on the source's untyped `any` payload is modelled by the optional fields:
`none` means the property is absent. -/
structure BackMsgData where
  value : Option JsValue := none
  height : Option JsNumber := none

/-- A forward message posted to the component iframe.  The only type sent is
`RENDER`, whose payload is `args`/`dfs` (and, on re-render, `disabled`). -/
structure ForwardMsg where
  type : String
  args : JsValue
  dfs : List JsValue
  disabled : Option Bool := none

/-- The runtime state of one `ComponentInstance`, together with its effect
logs.  `iframeRefPresent`/`contentWindowPresent` model the two successive null
checks of `sendForwardMsg`; `warnings` records `logWarning` calls;
`postedMessages` records `postMessage` calls to the iframe. -/
structure ComponentInstance where
  componentReady : Bool := false
  pendingRenderArgs : JsValue := .jsObj []
  pendingRenderDfs : List JsValue := []
  frameHeight : Option JsNumber := none
  iframeRefPresent : Bool := true
  contentWindowPresent : Bool := true
  elementId : String
  widgetMgr : WidgetStateManager
  warnings : List String := []
  postedMessages : List ForwardMsg := []

namespace ComponentInstance

/-- Appends a `logWarning` record. -/
def logW (msg : String) (c : ComponentInstance) : ComponentInstance :=
  { c with warnings := c.warnings ++ [msg] }

/-- Posts a forward message to the component iframe, warning instead when
the iframe or its content window is missing. -/
def sendForwardMsg (msg : ForwardMsg) (c : ComponentInstance) :
    ComponentInstance :=
  if ¬ c.iframeRefPresent then
    logW "Can\x27t send ForwardMsg; missing our iframe!" c
  else if ¬ c.contentWindowPresent then
    logW "Can\x27t send ForwardMsg; iframe has no contentWindow!" c
  else
    { c with postedMessages := c.postedMessages ++ [msg] }

/-- The component set a new widget value; forward it into the widget state
store through the matching typed setter, dispatching on the JavaScript
`typeof` of the value. -/
def handleSetWidgetValue (data : BackMsgData) (source : Source)
    (c : ComponentInstance) : ComponentInstance :=
  match data.value with
  | none => logW "handleSetWidgetValue: missing \x27value\x27 prop" c
  | some v =>
      match v with
      | .jsBool b =>
          { c with widgetMgr :=
              WidgetStateManager.setBoolValue c.elementId b source c.widgetMgr }
      | .jsNum n =>
          { c with widgetMgr :=
              WidgetStateManager.setFloatValue c.elementId n source c.widgetMgr }
      | .jsStr s =>
          { c with widgetMgr :=
              WidgetStateManager.setStringValue c.elementId s source c.widgetMgr }
      | _ => logW "ComponentInstance: unsupported value type!" c

/-- The component has a new height; resize the iframe
(`setState(\x7bframeHeight\x7d)`). -/
def handleSetFrameHeight (data : BackMsgData) (c : ComponentInstance) :
    ComponentInstance :=
  match data.height with
  | none => logW "handleSetFrameHeight: missing \x27height\x27 prop" c
  | some h => { c with frameHeight := some h }

/-- Receive a `ComponentBackMsg` from the component iframe
(`ComponentInstance.onBackMsg`). -/
def onBackMsg (type : String) (data : BackMsgData) (c : ComponentInstance) :
    ComponentInstance :=
  if type = COMPONENT_READY then
    if c.componentReady then
      logW "Got multiple COMPONENT_READY messages!" c
    else
      sendForwardMsg
        { type := RENDER, args := c.pendingRenderArgs,
          dfs := c.pendingRenderDfs }
        { c with componentReady := true }
  else if type = SET_WIDGET_VALUE then
    if ¬ c.componentReady then
      logW ("Got " ++ type ++ " before " ++ COMPONENT_READY ++ "!") c
    else
      handleSetWidgetValue data { fromUi := true } c
  else if type = SET_FRAME_HEIGHT then
    if ¬ c.componentReady then
      logW ("Got " ++ type ++ " before " ++ COMPONENT_READY ++ "!") c
    else
      handleSetFrameHeight data c
  else
    logW ("Unrecognized ComponentBackMsgType: " ++ type) c

/-- Delivers a sequence of inbound back-messages in order. -/
def processMsgs (msgs : List (String × BackMsgData)) (c : ComponentInstance) :
    ComponentInstance :=
  msgs.foldl (fun acc m => onBackMsg m.1 m.2 acc) c

/-- A freshly mounted `ComponentInstance` for the element with the given id:
not ready, empty pending render payload, no frame height, nothing logged or
posted. -/
def init (elementId : String) (widgetMgr : WidgetStateManager) :
    ComponentInstance :=
  { elementId := elementId, widgetMgr := widgetMgr }

end ComponentInstance

/-- The run states distinguished by `Block.isElementStale`
(lib/ReportRunState; the module itself is not among the sources, its
constructors are those the spec and the caller name: not running, running,
rerun requested, compilation error). -/
inductive ReportRunState where
  | notRunning : ReportRunState
  | running : ReportRunState
  | rerunRequested : ReportRunState
  | compilationError : ReportRunState
deriving DecidableEq

/-- The props of `Block` that `isElementStale` consults: the current run
state and the current run (report) identifier. -/
structure BlockProps where
  reportId : String
  reportRunState : ReportRunState
deriving DecidableEq

/-- A mounted report element: `reportElement.get("reportId")` is the run
identifier recorded when the element was produced. -/
structure ReportElement where
  reportId : String
deriving DecidableEq

/-- Whether a mounted element is stale (`Block.isElementStale`). -/
def isElementStale (props : BlockProps) (reportElement : ReportElement) :
    Bool :=
  if props.reportRunState = .rerunRequested then
    true
  else if props.reportRunState = .running then
    reportElement.reportId ≠ props.reportId
  else
    false

/-- The `Text` element formats (proto enum `Text.Format`); `unknownFormat`
stands for any numeric value outside the known enumeration, which the
renderer's default branch rejects. -/
inductive TextFormat where
  | plain : TextFormat
  | markdown : TextFormat
  | json : TextFormat
  | errorFmt : TextFormat
  | warningFmt : TextFormat
  | infoFmt : TextFormat
  | successFmt : TextFormat
  | unknownFormat (n : JsNumber) : TextFormat

/-- A thrown JavaScript `Error`, reduced to its `message`. -/
structure JsError where
  message : String
deriving DecidableEq

/-- The render results of the `Text` element that the claims distinguish. -/
inductive RenderedText where
  | plainDiv (body : String) : RenderedText
  | markdownDiv (body : String) (allowHtml : Bool) : RenderedText
  | jsonDiv (src : JsValue) : RenderedText
  | alertDiv (cssClass : Option String) (body : String) : RenderedText

/-- CSS class chosen for the alert formats (`getAlertCSSClass`). -/
def getAlertCSSClass : TextFormat → Option String
  | .errorFmt => some "alert-danger"
  | .warningFmt => some "alert-warning"
  | .infoFmt => some "alert-info"
  | .successFmt => some "alert-success"
  | _ => none

/-- JavaScript `message.replace(/[^0-9]/g, "")`: the digits of the string,
in order. -/
def digitsOf (s : String) : String :=
  String.mk (s.toList.filter Char.isDigit)

/-- JavaScript `parseInt(s, 10)` on a digits-only string (the only inputs
it receives here): `none` models the `NaN` result on the empty string. -/
def parseIntDec (s : String) : Option Nat :=
  match s.toList with
  | [] => none
  | cs => some (cs.foldl (fun acc c => acc * 10 + (c.toNat - 48)) 0)

/-- JavaScript `body.substr(0, len)` where `len` may be `NaN` (taken as 0). -/
def substrTo (body : String) : Option Nat → String
  | some len => body.take len
  | none => ""

/-- Render of the `Text` element (`Text.render`), parameterized by the
platform's `JSON.parse` (a builtin, not repository code): a thrown error is
an `Except.error` propagating to the nearest error boundary.  In the JSON
branch, a parse failure gets the prefix of the body up to and including the
reported error position, plus a marker, appended to its message before
being re-thrown. -/
def textRender (parseJson : String → Except JsError JsValue)
    (format : TextFormat) (body : String) (allowHtml : Bool) :
    Except JsError RenderedText :=
  match format with
  | .plain => .ok (.plainDiv body)
  | .markdown => .ok (.markdownDiv body allowHtml)
  | .json =>
      match parseJson body with
      | .ok bodyObject => .ok (.jsonDiv bodyObject)
      | .error e =>
          let pos := parseIntDec (digitsOf e.message)
          .error
            ⟨e.message ++ "\n" ++ substrTo body (pos.map (· + 1)) ++ " ← here"⟩
  | .errorFmt => .ok (.alertDiv (getAlertCSSClass .errorFmt) body)
  | .warningFmt => .ok (.alertDiv (getAlertCSSClass .warningFmt) body)
  | .infoFmt => .ok (.alertDiv (getAlertCSSClass .infoFmt) body)
  | .successFmt => .ok (.alertDiv (getAlertCSSClass .successFmt) body)
  | .unknownFormat n => .error ⟨"Invalid Text format:" ++ toString n⟩

namespace WidgetStateManager

theorem mapGet_mapSet_self (k : String) (v : WidgetState)
    (l : List (String × WidgetState)) : mapGet k (mapSet k v l) = some v := by
  induction l with
  | nil => simp [mapSet, mapGet]
  | cons hd tl ih =>
      obtain ⟨k', v'⟩ := hd
      by_cases h : k' = k
      · simp [mapSet, mapGet, h]
      · simp [mapSet, mapGet, h, ih]

theorem maybeSend_widgetStates (source : Source) (m : WidgetStateManager) :
    (maybeSendUpdateWidgetsMessage source m).widgetStates = m.widgetStates := by
  unfold maybeSendUpdateWidgetsMessage sendUpdateWidgetsMessage
  split <;> rfl

theorem setWidgetStateProto_sentMessages (id : String) (v : WidgetValue)
    (m : WidgetStateManager) :
    (setWidgetStateProto id v m).sentMessages = m.sentMessages := rfl

theorem getProto_after_set (id : String) (v : WidgetValue) (source : Source)
    (m : WidgetStateManager) :
    getWidgetStateProto id
      (maybeSendUpdateWidgetsMessage source (setWidgetStateProto id v m)) =
      some ⟨id, v⟩ := by
  rw [getWidgetStateProto, maybeSend_widgetStates, setWidgetStateProto]
  exact mapGet_mapSet_self id ⟨id, v⟩ m.widgetStates

theorem mapRequireNumber_num (ns : List JsNumber) :
    mapRequireNumber (ns.map NumberOrLong.num) = Except.ok ns := by
  induction ns with
  | nil => rfl
  | cons n tl ih => simp [mapRequireNumber, requireNumber, ih]

theorem maybeSend_sentMessages (source : Source) (m : WidgetStateManager) :
    (maybeSendUpdateWidgetsMessage source m).sentMessages =
      (if source.fromUi then m.sentMessages ++ [createWidgetStatesMsg m]
       else m.sentMessages) := by
  unfold maybeSendUpdateWidgetsMessage sendUpdateWidgetsMessage
  split <;> rfl

theorem mapSet_keys (k : String) (v : WidgetState)
    (l : List (String × WidgetState)) :
    (mapSet k v l).map Prod.fst =
      (if (l.map Prod.fst).contains k then l.map Prod.fst
       else l.map Prod.fst ++ [k]) := by
  induction l with
  | nil => simp [mapSet]
  | cons hd tl ih =>
      obtain ⟨k', v'⟩ := hd
      by_cases h : k' = k
      · subst h
        have hcc : ((k' :: tl.map Prod.fst).contains k') = true := by
          simp [List.contains_cons]
        simp only [mapSet, if_pos rfl, List.map_cons]
        rw [if_pos hcc]
        simp
      · have hne : (k == k') = false := beq_eq_false_iff_ne.mpr (Ne.symm h)
        simp only [mapSet, if_neg h, List.map_cons, List.contains_cons, hne,
          Bool.false_or, ih]
        by_cases hc : (tl.map Prod.fst).contains k
        · rw [if_pos hc, if_pos hc]
        · rw [if_neg hc, if_neg hc, List.cons_append]

end WidgetStateManager

open WidgetStateManager in
/-- C4.  Every typed setter delivers exactly one message to
`sendRerunBackMsg` before returning when `source.fromUi` is true, and none
when it is false (`maybeSendUpdateWidgetsMessage`). -/
theorem setters_send_iff_fromUi (id : String) (source : Source)
    (m : WidgetStateManager) (b : Bool) (n : JsNumber) (s : String)
    (ss : List String) (ns : List JsNumber) (xs : List JsNumber)
    (j : JsValue) (t : ArrowTable) (bs : List Nat) :
    ((setBoolValue id b source m).sentMessages =
      (if source.fromUi then
        m.sentMessages ++
          [createWidgetStatesMsg (setWidgetStateProto id (.boolValue b) m)]
       else m.sentMessages)) ∧
    ((setIntValue id n source m).sentMessages =
      (if source.fromUi then
        m.sentMessages ++
          [createWidgetStatesMsg
            (setWidgetStateProto id (.intValue (.num n)) m)]
       else m.sentMessages)) ∧
    ((setFloatValue id n source m).sentMessages =
      (if source.fromUi then
        m.sentMessages ++
          [createWidgetStatesMsg (setWidgetStateProto id (.floatValue n) m)]
       else m.sentMessages)) ∧
    ((setStringValue id s source m).sentMessages =
      (if source.fromUi then
        m.sentMessages ++
          [createWidgetStatesMsg (setWidgetStateProto id (.stringValue s) m)]
       else m.sentMessages)) ∧
    ((setStringArrayValue id ss source m).sentMessages =
      (if source.fromUi then
        m.sentMessages ++
          [createWidgetStatesMsg
            (setWidgetStateProto id (.stringArrayValue ss) m)]
       else m.sentMessages)) ∧
    ((setIntArrayValue id ns source m).sentMessages =
      (if source.fromUi then
        m.sentMessages ++
          [createWidgetStatesMsg
            (setWidgetStateProto id (.intArrayValue (ns.map .num)) m)]
       else m.sentMessages)) ∧
    ((setFloatArrayValue id xs source m).sentMessages =
      (if source.fromUi then
        m.sentMessages ++
          [createWidgetStatesMsg
            (setWidgetStateProto id (.floatArrayValue xs) m)]
       else m.sentMessages)) ∧
    ((setJsonValue id j source m).sentMessages =
      (if source.fromUi then
        m.sentMessages ++
          [createWidgetStatesMsg
            (setWidgetStateProto id (.jsonValue (stringify j)) m)]
       else m.sentMessages)) ∧
    ((setArrowValue id t source m).sentMessages =
      (if source.fromUi then
        m.sentMessages ++
          [createWidgetStatesMsg (setWidgetStateProto id (.arrowValue t) m)]
       else m.sentMessages)) ∧
    ((setBytesValue id bs source m).sentMessages =
      (if source.fromUi then
        m.sentMessages ++
          [createWidgetStatesMsg (setWidgetStateProto id (.bytesValue bs) m)]
       else m.sentMessages)) := by
  unfold setBoolValue setIntValue setFloatValue setStringValue
    setStringArrayValue setIntArrayValue setFloatArrayValue setJsonValue
    setArrowValue setBytesValue
  refine ⟨?_, ?_, ?_, ?_, ?_, ?_, ?_, ?_, ?_, ?_⟩ <;>
    rw [maybeSend_sentMessages, setWidgetStateProto_sentMessages]

open WidgetStateManager in
/-- C5.  A flush serializes every currently-stored entry, in the store's
insertion order, into one message handed to `sendRerunBackMsg`; it does not
change the store; two flushes without an intervening mutation deliver the
identical payload twice; and the store's order is insertion order of
first-set (overwriting an existing id keeps its position, a new id is
appended). -/
theorem flush_serializes_store_in_insertion_order (m : WidgetStateManager) :
    (createWidgetStatesMsg m = m.widgetStates.map Prod.snd) ∧
    ((sendUpdateWidgetsMessage m).sentMessages =
      m.sentMessages ++ [createWidgetStatesMsg m]) ∧
    ((sendUpdateWidgetsMessage m).widgetStates = m.widgetStates) ∧
    ((sendUpdateWidgetsMessage (sendUpdateWidgetsMessage m)).sentMessages =
      m.sentMessages ++ [createWidgetStatesMsg m, createWidgetStatesMsg m]) ∧
    (∀ (k : String) (v : WidgetState),
      (mapSet k v m.widgetStates).map Prod.fst =
        (if (m.widgetStates.map Prod.fst).contains k then
          m.widgetStates.map Prod.fst
         else m.widgetStates.map Prod.fst ++ [k])) := by
  refine ⟨rfl, rfl, rfl, ?_, ?_⟩
  · simp [sendUpdateWidgetsMessage, createWidgetStatesMsg]
  · intro k v
    exact mapSet_keys k v m.widgetStates

open WidgetStateManager in
/-- C3 (amended).  For every widget id and stored value, the typed setter
followed by the matching typed getter returns the value set, with the same
variant tag, for the bool, int, float, string, string[], int[], float[],
arrow and bytes variants; for the json variant the getter returns the
stored `JSON.stringify` serialization of the value. -/
theorem set_then_get_roundtrip (id : String) (source : Source)
    (m : WidgetStateManager) (b : Bool) (n x : JsNumber) (s : String)
    (ss : List String) (ns xs : List JsNumber) (j : JsValue) (t : ArrowTable)
    (bs : List Nat) :
    getBoolValue id (setBoolValue id b source m) = some b ∧
    getIntValue id (setIntValue id n source m) = .ok (some n) ∧
    getFloatValue id (setFloatValue id x source m) = some x ∧
    getStringValue id (setStringValue id s source m) = some s ∧
    getStringArrayValue id (setStringArrayValue id ss source m) = some ss ∧
    getIntArrayValue id (setIntArrayValue id ns source m) = .ok (some ns) ∧
    getFloatArrayValue id (setFloatArrayValue id xs source m) = some xs ∧
    getJsonValue id (setJsonValue id j source m) = some (stringify j) ∧
    getArrowValue id (setArrowValue id t source m) = some t ∧
    getBytesValue id (setBytesValue id bs source m) = some bs := by
  refine ⟨?_, ?_, ?_, ?_, ?_, ?_, ?_, ?_, ?_, ?_⟩ <;>
    simp [getBoolValue, setBoolValue, getIntValue, setIntValue,
      getFloatValue, setFloatValue, getStringValue, setStringValue,
      getStringArrayValue, setStringArrayValue, getIntArrayValue,
      setIntArrayValue, getFloatArrayValue, setFloatArrayValue,
      getJsonValue, setJsonValue, getArrowValue, setArrowValue,
      getBytesValue, setBytesValue, getProto_after_set,
      mapRequireNumber_num, requireNumber]

open WidgetStateManager in
/-- C3 counterexample: setting the json variant to the string value `"x"`
and reading it back returns the serialization `"\"x\""`, not the value
`"x"` that was set — `setJsonValue` stores `JSON.stringify` of its
argument, so the json round-trip does not return the value unchanged. -/
theorem json_roundtrip_returns_serialization :
    getJsonValue "w" (setJsonValue "w" (JsValue.jsStr "x") ⟨false⟩ {}) =
      some "\"x\"" ∧
    (some "\"x\"" : Option String) ≠ some "x" := by
  exact ⟨rfl, by decide⟩

namespace WidgetStateManager

theorem clean_foldl (S : List String) (xs : List (String × WidgetState)) :
    ∀ m : WidgetStateManager,
    (xs.foldl
      (fun acc kv =>
        if S.contains kv.1 then acc else deleteWidgetStateProto kv.1 acc)
      m).widgetStates =
      m.widgetStates.filter
        (fun kv => S.contains kv.1 || !((xs.map Prod.fst).contains kv.1)) := by
  induction xs with
  | nil =>
      intro m
      simp
  | cons hd tl ih =>
      intro m
      simp only [List.foldl_cons, List.map_cons]
      by_cases h : S.contains hd.1
      · rw [if_pos h, ih]
        have hmemS : hd.1 ∈ S := by simpa using h
        refine List.filter_congr ?_
        intro kv _
        by_cases hS : kv.1 ∈ S
        · simp [hS]
        · have hk : kv.1 ≠ hd.1 := fun he => hS (he ▸ hmemS)
          simp [hS, beq_eq_false_iff_ne.mpr hk]
      · rw [if_neg h, ih]
        rw [deleteWidgetStateProto]
        simp only [List.filter_filter]
        have hmemS : hd.1 ∉ S := by simpa using h
        refine List.filter_congr ?_
        intro kv _
        by_cases hk : kv.1 = hd.1
        · simp [hk, hmemS]
        · simp [hk, beq_eq_false_iff_ne.mpr hk]

theorem clean_foldl_sentMessages (S : List String)
    (xs : List (String × WidgetState)) :
    ∀ m : WidgetStateManager,
    (xs.foldl
      (fun acc kv =>
        if S.contains kv.1 then acc else deleteWidgetStateProto kv.1 acc)
      m).sentMessages = m.sentMessages := by
  induction xs with
  | nil =>
      intro m
      rfl
  | cons hd tl ih =>
      intro m
      simp only [List.foldl_cons]
      rw [ih]
      split <;> rfl

theorem clean_widgetStates (S : List String) (m : WidgetStateManager) :
    (clean S m).widgetStates =
      m.widgetStates.filter (fun kv => S.contains kv.1) := by
  unfold clean
  rw [clean_foldl]
  refine List.filter_congr ?_
  intro kv hkv
  have hmem : kv.1 ∈ m.widgetStates.map Prod.fst :=
    List.mem_map_of_mem Prod.fst hkv
  simp [hmem]

end WidgetStateManager

open WidgetStateManager in
/-- C6.  For every store contents and active-id set, `clean` removes
exactly the entries whose id is not active and keeps the active ones
unchanged (in order); it sends nothing; with the empty active set it
removes every entry, after which every typed getter returns `undefined`
for every id. -/
theorem clean_removes_exactly_inactive (m : WidgetStateManager)
    (S : List String) :
    ((clean S m).widgetStates =
      m.widgetStates.filter (fun kv => S.contains kv.1)) ∧
    ((clean S m).sentMessages = m.sentMessages) ∧
    ((clean [] m).widgetStates = []) ∧
    (∀ id : String,
      getBoolValue id (clean [] m) = none ∧
      getIntValue id (clean [] m) = .ok none ∧
      getFloatValue id (clean [] m) = none ∧
      getStringValue id (clean [] m) = none ∧
      getStringArrayValue id (clean [] m) = none ∧
      getIntArrayValue id (clean [] m) = .ok none ∧
      getFloatArrayValue id (clean [] m) = none ∧
      getJsonValue id (clean [] m) = none ∧
      getArrowValue id (clean [] m) = none ∧
      getBytesValue id (clean [] m) = none) := by
  have hempty : (clean [] m).widgetStates = [] := by
    rw [clean_widgetStates]
    simp
  refine ⟨clean_widgetStates S m, ?_, hempty, ?_⟩
  · unfold clean
    exact clean_foldl_sentMessages S m.widgetStates m
  · intro id
    refine ⟨?_, ?_, ?_, ?_, ?_, ?_, ?_, ?_, ?_, ?_⟩ <;>
      simp [getBoolValue, getIntValue, getFloatValue, getStringValue,
        getStringArrayValue, getIntArrayValue, getFloatArrayValue,
        getJsonValue, getArrowValue, getBytesValue, getWidgetStateProto,
        hempty, mapGet]

open WidgetStateManager in
/-- C7.  A typed getter returns a value only when the stored variant tag
matches the accessor's variant: for a stored state of any other tag the
getter returns `undefined` (and, for the int getters, returns normally
rather than throwing). -/
theorem mismatched_getter_returns_undefined (m : WidgetStateManager)
    (id : String) (st : WidgetState)
    (h : getWidgetStateProto id m = some st) :
    (getBoolValue id m = none ∨ st.value.tag = some "boolValue") ∧
    (getIntValue id m = .ok none ∨ st.value.tag = some "intValue") ∧
    (getFloatValue id m = none ∨ st.value.tag = some "floatValue") ∧
    (getStringValue id m = none ∨ st.value.tag = some "stringValue") ∧
    (getStringArrayValue id m = none ∨
      st.value.tag = some "stringArrayValue") ∧
    (getIntArrayValue id m = .ok none ∨
      st.value.tag = some "intArrayValue") ∧
    (getFloatArrayValue id m = none ∨
      st.value.tag = some "floatArrayValue") ∧
    (getJsonValue id m = none ∨ st.value.tag = some "jsonValue") ∧
    (getArrowValue id m = none ∨ st.value.tag = some "arrowValue") ∧
    (getBytesValue id m = none ∨ st.value.tag = some "bytesValue") := by
  refine ⟨?_, ?_, ?_, ?_, ?_, ?_, ?_, ?_, ?_, ?_⟩ <;>
    cases hv : st.value <;>
      simp [getBoolValue, getIntValue, getFloatValue, getStringValue,
        getStringArrayValue, getIntArrayValue, getFloatArrayValue,
        getJsonValue, getArrowValue, getBytesValue, h, hv, WidgetValue.tag]

open WidgetStateManager in
/-- Witness for C7 at a concrete store: after storing a string value under
id `w`, every non-string typed getter returns `undefined`. -/
theorem mismatched_getter_witness :
    (getBoolValue "w" (setStringValue "w" "s" ⟨false⟩ {}) = none ∨
      (WidgetState.mk "w" (.stringValue "s")).value.tag = some "boolValue") ∧
    (getIntValue "w" (setStringValue "w" "s" ⟨false⟩ {}) = .ok none ∨
      (WidgetState.mk "w" (.stringValue "s")).value.tag = some "intValue") ∧
    (getFloatValue "w" (setStringValue "w" "s" ⟨false⟩ {}) = none ∨
      (WidgetState.mk "w" (.stringValue "s")).value.tag =
        some "floatValue") ∧
    (getStringValue "w" (setStringValue "w" "s" ⟨false⟩ {}) = none ∨
      (WidgetState.mk "w" (.stringValue "s")).value.tag =
        some "stringValue") ∧
    (getStringArrayValue "w" (setStringValue "w" "s" ⟨false⟩ {}) = none ∨
      (WidgetState.mk "w" (.stringValue "s")).value.tag =
        some "stringArrayValue") ∧
    (getIntArrayValue "w" (setStringValue "w" "s" ⟨false⟩ {}) = .ok none ∨
      (WidgetState.mk "w" (.stringValue "s")).value.tag =
        some "intArrayValue") ∧
    (getFloatArrayValue "w" (setStringValue "w" "s" ⟨false⟩ {}) = none ∨
      (WidgetState.mk "w" (.stringValue "s")).value.tag =
        some "floatArrayValue") ∧
    (getJsonValue "w" (setStringValue "w" "s" ⟨false⟩ {}) = none ∨
      (WidgetState.mk "w" (.stringValue "s")).value.tag =
        some "jsonValue") ∧
    (getArrowValue "w" (setStringValue "w" "s" ⟨false⟩ {}) = none ∨
      (WidgetState.mk "w" (.stringValue "s")).value.tag =
        some "arrowValue") ∧
    (getBytesValue "w" (setStringValue "w" "s" ⟨false⟩ {}) = none ∨
      (WidgetState.mk "w" (.stringValue "s")).value.tag =
        some "bytesValue") :=
  mismatched_getter_returns_undefined (setStringValue "w" "s" ⟨false⟩ {})
    "w" ⟨"w", .stringValue "s"⟩ rfl

namespace WidgetStateManager

theorem mapGet_filter_ne (id : String) (l : List (String × WidgetState)) :
    mapGet id (l.filter (fun kv => kv.1 ≠ id)) = none := by
  induction l with
  | nil => rfl
  | cons hd tl ih =>
      obtain ⟨k, v⟩ := hd
      have ih' : mapGet id (tl.filter (fun kv => !decide (kv.1 = id))) = none := by
        simpa [ne_eq, decide_not] using ih
      by_cases h : k = id
      · simp [List.filter_cons, h, ih']
      · simp [List.filter_cons, h, mapGet, ih']

theorem mem_mapSet_self (k : String) (v : WidgetState)
    (l : List (String × WidgetState)) : (k, v) ∈ mapSet k v l := by
  induction l with
  | nil => simp [mapSet]
  | cons hd tl ih =>
      obtain ⟨k', v'⟩ := hd
      by_cases h : k' = k <;> simp [mapSet, h, ih]

theorem mem_mapSet_elim (k : String) (v : WidgetState)
    (l : List (String × WidgetState)) (kv : String × WidgetState)
    (hm : kv ∈ mapSet k v l) : kv ∈ l ∨ kv = (k, v) := by
  induction l with
  | nil =>
      right
      simpa [mapSet] using hm
  | cons hd tl ih =>
      obtain ⟨k', v'⟩ := hd
      by_cases h : k' = k
      · rw [mapSet, if_pos h] at hm
        rcases List.mem_cons.mp hm with h1 | h2
        · right; exact h1
        · left; exact List.mem_cons_of_mem _ h2
      · rw [mapSet, if_neg h] at hm
        rcases List.mem_cons.mp hm with h1 | h2
        · left; exact h1 ▸ List.mem_cons_self _ _
        · rcases ih h2 with h3 | h4
          · left; exact List.mem_cons_of_mem _ h3
          · right; exact h4

end WidgetStateManager

open WidgetStateManager in
/-- C10.  `setTriggerValue` leaves no entry for the id behind (every typed
getter subsequently returns `undefined`, and later flushes exclude the id);
when the source is from the UI, exactly one message is delivered during the
call, and its payload still contains the trigger entry, because the entry is
deleted only after the send. -/
theorem setTriggerValue_sends_then_deletes (m : WidgetStateManager)
    (id : String) (source : Source)
    (hwf : ∀ kv ∈ m.widgetStates, (kv : String × WidgetState).2.id = kv.1) :
    (getWidgetStateProto id (setTriggerValue id source m) = none) ∧
    (getBoolValue id (setTriggerValue id source m) = none) ∧
    (getIntValue id (setTriggerValue id source m) = .ok none) ∧
    (getFloatValue id (setTriggerValue id source m) = none) ∧
    (getStringValue id (setTriggerValue id source m) = none) ∧
    (getStringArrayValue id (setTriggerValue id source m) = none) ∧
    (getIntArrayValue id (setTriggerValue id source m) = .ok none) ∧
    (getFloatArrayValue id (setTriggerValue id source m) = none) ∧
    (getJsonValue id (setTriggerValue id source m) = none) ∧
    (getArrowValue id (setTriggerValue id source m) = none) ∧
    (getBytesValue id (setTriggerValue id source m) = none) ∧
    ((setTriggerValue id source m).sentMessages =
      m.sentMessages ++
        (if source.fromUi then
          [createWidgetStatesMsg
            (setWidgetStateProto id (.triggerValue true) m)]
         else [])) ∧
    (WidgetState.mk id (.triggerValue true) ∈
      createWidgetStatesMsg (setWidgetStateProto id (.triggerValue true) m)) ∧
    (∀ w ∈ createWidgetStatesMsg (setTriggerValue id source m), w.id ≠ id) := by
  have hstates : (setTriggerValue id source m).widgetStates =
      (mapSet id ⟨id, .triggerValue true⟩ m.widgetStates).filter
        (fun kv => kv.1 ≠ id) := by
    rw [setTriggerValue, deleteWidgetStateProto]
    rw [maybeSend_widgetStates, setWidgetStateProto]
  have hnone : getWidgetStateProto id (setTriggerValue id source m) = none := by
    rw [getWidgetStateProto, hstates]
    exact mapGet_filter_ne id _
  refine ⟨hnone, ?_, ?_, ?_, ?_, ?_, ?_, ?_, ?_, ?_, ?_, ?_, ?_, ?_⟩
  · simp [getBoolValue, hnone]
  · simp [getIntValue, hnone]
  · simp [getFloatValue, hnone]
  · simp [getStringValue, hnone]
  · simp [getStringArrayValue, hnone]
  · simp [getIntArrayValue, hnone]
  · simp [getFloatArrayValue, hnone]
  · simp [getJsonValue, hnone]
  · simp [getArrowValue, hnone]
  · simp [getBytesValue, hnone]
  · rw [setTriggerValue]
    have hsent : (deleteWidgetStateProto id
        (maybeSendUpdateWidgetsMessage source
          (setWidgetStateProto id (.triggerValue true) m))).sentMessages =
        (maybeSendUpdateWidgetsMessage source
          (setWidgetStateProto id (.triggerValue true) m)).sentMessages := rfl
    rw [hsent, maybeSend_sentMessages, setWidgetStateProto_sentMessages]
    cases hf : source.fromUi <;> simp [hf]
  · rw [createWidgetStatesMsg, setWidgetStateProto]
    exact List.mem_map_of_mem Prod.snd
      (mem_mapSet_self id ⟨id, .triggerValue true⟩ m.widgetStates)
  · intro w hw
    rw [createWidgetStatesMsg, hstates] at hw
    rcases List.mem_map.mp hw with ⟨kv, hkv, hsnd⟩
    have hkv' := List.mem_filter.mp hkv
    have hne : kv.1 ≠ id := by simpa using hkv'.2
    rcases mem_mapSet_elim id ⟨id, .triggerValue true⟩ m.widgetStates kv
        hkv'.1 with hmem | heq
    · rw [← hsnd, hwf kv hmem]
      exact hne
    · exact absurd (congrArg Prod.fst heq) hne

open WidgetStateManager in
/-- Witness for C10 at a concrete input: an empty store, id `b`, a
UI-sourced trigger. -/
theorem setTriggerValue_witness :
    (getWidgetStateProto "b" (setTriggerValue "b" ⟨true⟩ {}) = none) ∧
    (getBoolValue "b" (setTriggerValue "b" ⟨true⟩ {}) = none) ∧
    (getIntValue "b" (setTriggerValue "b" ⟨true⟩ {}) = .ok none) ∧
    (getFloatValue "b" (setTriggerValue "b" ⟨true⟩ {}) = none) ∧
    (getStringValue "b" (setTriggerValue "b" ⟨true⟩ {}) = none) ∧
    (getStringArrayValue "b" (setTriggerValue "b" ⟨true⟩ {}) = none) ∧
    (getIntArrayValue "b" (setTriggerValue "b" ⟨true⟩ {}) = .ok none) ∧
    (getFloatArrayValue "b" (setTriggerValue "b" ⟨true⟩ {}) = none) ∧
    (getJsonValue "b" (setTriggerValue "b" ⟨true⟩ {}) = none) ∧
    (getArrowValue "b" (setTriggerValue "b" ⟨true⟩ {}) = none) ∧
    (getBytesValue "b" (setTriggerValue "b" ⟨true⟩ {}) = none) ∧
    ((setTriggerValue "b" ⟨true⟩ {}).sentMessages =
      ({} : WidgetStateManager).sentMessages ++
        (if (⟨true⟩ : Source).fromUi then
          [createWidgetStatesMsg
            (setWidgetStateProto "b" (.triggerValue true) {})]
         else [])) ∧
    (WidgetState.mk "b" (.triggerValue true) ∈
      createWidgetStatesMsg
        (setWidgetStateProto "b" (.triggerValue true) {})) ∧
    (∀ w ∈ createWidgetStatesMsg (setTriggerValue "b" ⟨true⟩ {}),
      w.id ≠ "b") :=
  setTriggerValue_sends_then_deletes {} "b" ⟨true⟩ (by simp)

namespace ComponentInstance

theorem logW_componentReady (s : String) (c : ComponentInstance) :
    (logW s c).componentReady = c.componentReady := rfl

theorem handleSetWidgetValue_componentReady (data : BackMsgData)
    (source : Source) (c : ComponentInstance) :
    (handleSetWidgetValue data source c).componentReady =
      c.componentReady := by
  unfold handleSetWidgetValue
  cases data.value with
  | none => rfl
  | some v => cases v <;> rfl

theorem handleSetFrameHeight_componentReady (data : BackMsgData)
    (c : ComponentInstance) :
    (handleSetFrameHeight data c).componentReady = c.componentReady := by
  unfold handleSetFrameHeight
  cases data.height <;> rfl

theorem onBackMsg_componentReady_of_ne (type : String) (data : BackMsgData)
    (c : ComponentInstance) (h : type ≠ COMPONENT_READY) :
    (onBackMsg type data c).componentReady = c.componentReady := by
  unfold onBackMsg
  rw [if_neg h]
  by_cases h2 : type = SET_WIDGET_VALUE
  · rw [if_pos h2]
    by_cases h3 : c.componentReady
    · simp [h3, handleSetWidgetValue_componentReady]
    · simp [eq_false_of_ne_true h3, logW_componentReady]
  · rw [if_neg h2]
    by_cases h4 : type = SET_FRAME_HEIGHT
    · rw [if_pos h4]
      by_cases h3 : c.componentReady
      · simp [h3, handleSetFrameHeight_componentReady]
      · simp [eq_false_of_ne_true h3, logW_componentReady]
    · rw [if_neg h4]
      rfl

theorem processMsgs_componentReady (msgs : List (String × BackMsgData)) :
    ∀ c : ComponentInstance, (∀ p ∈ msgs, p.1 ≠ COMPONENT_READY) →
    (processMsgs msgs c).componentReady = c.componentReady := by
  induction msgs with
  | nil =>
      intro c _
      rfl
  | cons hd tl ih =>
      intro c hno
      have h1 : (processMsgs tl (onBackMsg hd.1 hd.2 c)).componentReady =
          (onBackMsg hd.1 hd.2 c).componentReady :=
        ih _ (fun p hp => hno p (List.mem_cons_of_mem hd hp))
      have h2 : (onBackMsg hd.1 hd.2 c).componentReady = c.componentReady :=
        onBackMsg_componentReady_of_ne hd.1 hd.2 c
          (hno hd (List.mem_cons_self hd tl))
      calc (processMsgs (hd :: tl) c).componentReady
          = (processMsgs tl (onBackMsg hd.1 hd.2 c)).componentReady := rfl
        _ = c.componentReady := h1.trans h2

end ComponentInstance

open ComponentInstance in
/-- C1.  From a fresh `ComponentInstance`, after any sequence of inbound
messages containing no `COMPONENT_READY`, the instance is still not ready,
and a `SET_WIDGET_VALUE` or `SET_FRAME_HEIGHT` delivered then is not
honored: the handler only appends a warning — the widget state store is not
mutated, the frame height is unchanged, nothing is posted, and no error is
raised (the handler returns normally). -/
theorem premature_set_messages_never_honored (elementId : String)
    (mgr : WidgetStateManager) (msgs : List (String × BackMsgData))
    (t : String) (data : BackMsgData)
    (hno : ∀ p ∈ msgs, p.1 ≠ COMPONENT_READY)
    (ht : t = SET_WIDGET_VALUE ∨ t = SET_FRAME_HEIGHT) :
    ((processMsgs msgs (init elementId mgr)).componentReady = false) ∧
    (onBackMsg t data (processMsgs msgs (init elementId mgr)) =
      logW ("Got " ++ t ++ " before " ++ COMPONENT_READY ++ "!")
        (processMsgs msgs (init elementId mgr))) ∧
    ((onBackMsg t data (processMsgs msgs (init elementId mgr))).widgetMgr =
      (processMsgs msgs (init elementId mgr)).widgetMgr) ∧
    ((onBackMsg t data (processMsgs msgs (init elementId mgr))).frameHeight =
      (processMsgs msgs (init elementId mgr)).frameHeight) ∧
    ((onBackMsg t data (processMsgs msgs (init elementId mgr))).warnings =
      (processMsgs msgs (init elementId mgr)).warnings ++
        ["Got " ++ t ++ " before " ++ COMPONENT_READY ++ "!"]) := by
  have hready :
      (processMsgs msgs (init elementId mgr)).componentReady = false :=
    (processMsgs_componentReady msgs (init elementId mgr) hno).trans rfl
  have hnotready : ¬ (processMsgs msgs (init elementId mgr)).componentReady =
      true := by
    simp [hready]
  have heq : onBackMsg t data (processMsgs msgs (init elementId mgr)) =
      logW ("Got " ++ t ++ " before " ++ COMPONENT_READY ++ "!")
        (processMsgs msgs (init elementId mgr)) := by
    rcases ht with h | h <;> subst h
    · unfold onBackMsg
      rw [if_neg (by decide), if_pos rfl, if_pos hnotready]
    · unfold onBackMsg
      rw [if_neg (by decide), if_neg (by decide), if_pos rfl,
        if_pos hnotready]
  refine ⟨hready, heq, ?_, ?_, ?_⟩ <;> rw [heq] <;> rfl

open ComponentInstance in
/-- Witness for C1 at a concrete run: one premature `SET_FRAME_HEIGHT`
followed by a premature `SET_WIDGET_VALUE`. -/
theorem premature_set_witness :
    ((processMsgs [(SET_FRAME_HEIGHT, {})] (init "w" {})).componentReady =
      false) ∧
    (onBackMsg SET_WIDGET_VALUE { value := some (.jsBool true) }
        (processMsgs [(SET_FRAME_HEIGHT, {})] (init "w" {})) =
      logW ("Got " ++ SET_WIDGET_VALUE ++ " before " ++ COMPONENT_READY ++ "!")
        (processMsgs [(SET_FRAME_HEIGHT, {})] (init "w" {}))) ∧
    ((onBackMsg SET_WIDGET_VALUE { value := some (.jsBool true) }
        (processMsgs [(SET_FRAME_HEIGHT, {})] (init "w" {}))).widgetMgr =
      (processMsgs [(SET_FRAME_HEIGHT, {})] (init "w" {})).widgetMgr) ∧
    ((onBackMsg SET_WIDGET_VALUE { value := some (.jsBool true) }
        (processMsgs [(SET_FRAME_HEIGHT, {})] (init "w" {}))).frameHeight =
      (processMsgs [(SET_FRAME_HEIGHT, {})] (init "w" {})).frameHeight) ∧
    ((onBackMsg SET_WIDGET_VALUE { value := some (.jsBool true) }
        (processMsgs [(SET_FRAME_HEIGHT, {})] (init "w" {}))).warnings =
      (processMsgs [(SET_FRAME_HEIGHT, {})] (init "w" {})).warnings ++
        ["Got " ++ SET_WIDGET_VALUE ++ " before " ++ COMPONENT_READY ++
          "!"]) :=
  premature_set_messages_never_honored "w" {} [(SET_FRAME_HEIGHT, {})]
    SET_WIDGET_VALUE { value := some (.jsBool true) }
    (by
      intro p hp
      rw [List.mem_singleton] at hp
      subst hp
      decide)
    (Or.inl rfl)

open ComponentInstance in
/-- C2 (behavior of the code at the claim's scenario): delivering
`COMPONENT_READY` three times to a fresh instance posts exactly ONE
`RENDER` message — the second and third `COMPONENT_READY` are answered
only with the `Got multiple COMPONENT_READY messages!` warning, with no
resend of the buffered payload.  The claim (and the repository's own
`ComponentInstance` test `can be called multiple times`) expects three
`RENDER` messages. -/
theorem triple_ready_posts_single_render :
    ((processMsgs
        [(COMPONENT_READY, {}), (COMPONENT_READY, {}), (COMPONENT_READY, {})]
        { init "w" {} with
            pendingRenderArgs :=
              JsValue.jsObj [("foo", JsValue.jsNum 1)] }).postedMessages.length
      = 1) ∧
    ((processMsgs
        [(COMPONENT_READY, {}), (COMPONENT_READY, {}), (COMPONENT_READY, {})]
        { init "w" {} with
            pendingRenderArgs :=
              JsValue.jsObj [("foo", JsValue.jsNum 1)] }).warnings =
      ["Got multiple COMPONENT_READY messages!",
       "Got multiple COMPONENT_READY messages!"]) :=
  ⟨rfl, rfl⟩

/-- C8.  An element is stale exactly when a rerun was just requested
(everything is about to become stale), or the app is running and the
element's recorded run identifier differs from the current one; in every
other run state no element is stale. -/
theorem isElementStale_characterization (props : BlockProps)
    (el : ReportElement) :
    isElementStale props el = true ↔
      (props.reportRunState = .rerunRequested ∨
        (props.reportRunState = .running ∧ el.reportId ≠ props.reportId)) := by
  unfold isElementStale
  by_cases h1 : props.reportRunState = .rerunRequested
  · simp [h1]
  · rw [if_neg h1]
    by_cases h2 : props.reportRunState = .running
    · simp [h2, h1]
    · simp [h1, h2]

/-- C9.  In the JSON format, a body that fails to parse is re-thrown (never
returned or swallowed), with the prefix of the body up to and including the
error position reported in the parse error's message, plus a marker,
appended to the message. -/
theorem json_parse_failure_rethrown_with_context
    (parseJson : String → Except JsError JsValue) (body : String)
    (allowHtml : Bool) (e : JsError) (pos : Nat)
    (hp : parseJson body = .error e)
    (hpos : parseIntDec (digitsOf e.message) = some pos) :
    textRender parseJson .json body allowHtml =
      .error ⟨e.message ++ "\n" ++ body.take (pos + 1) ++ " ← here"⟩ := by
  unfold textRender
  rw [hp]
  simp [hpos, substrTo]

/-- Witness for C9 at a concrete failing parse: the platform reports
position 1, so the first two characters of the body are echoed before the
marker. -/
theorem json_parse_failure_witness :
    textRender
        (fun _ =>
          .error ⟨"Unexpected token o in JSON at position 1"⟩)
        .json "not json" false =
      .error ⟨"Unexpected token o in JSON at position 1" ++ "\n" ++
        "not json".take 2 ++ " ← here"⟩ :=
  json_parse_failure_rethrown_with_context
    (fun _ => .error ⟨"Unexpected token o in JSON at position 1"⟩)
    "not json" false ⟨"Unexpected token o in JSON at position 1"⟩ 1 rfl rfl

end Demoo
